import Mathlib

/-!
Shallow embedding of the Copua Lua CoAP binding (src/src/copua.c, src/src/common.c).

Bytes are modelled as `Nat` values (< 256 where the C type is `uint8_t`);
C unsigned arithmetic is modelled with explicit `% 2^w`; Lua-level values
that a C function may receive are modelled by small inductive types; C
functions that raise Lua errors return `Except`/`Option` results.
-/

namespace Copua

/-- Error taxonomy for script-visible failures raised via `luaL_error`
(names follow the specification's error taxonomy). -/
inductive CErr where
  | objectLocked
  | invalidMethod
  | wrongSendPath
  | optionTooLarge
  | tooManyFilterArgs
  | invalidArgument
  deriving DecidableEq, Repr

/-- Option value classes, mirroring `coap_optval_type_t` in copua.c
(`OPTVAL_UNKNWN`, `OPTVAL_UINT`, `OPTVAL_STRING`, `OPTVAL_OPAQUE`). -/
inductive OptvalType where
  | unknwn
  | uint
  | string
  | opq
  deriving DecidableEq, Repr

/-- Lua values pushed back to the script by the option read path. -/
inductive LuaVal where
  | nil
  | num (n : Nat)
  | str (s : List Nat)
  | arr (bs : List Nat)
  deriving DecidableEq, Repr

/-- Lua argument passed to `set_option` (number, string, or bytes-array). -/
inductive OptArg where
  | num (n : Nat)
  | str (s : List Nat)
  | arr (bs : List Nat)
  deriving DecidableEq, Repr

/-- Embedding of `_get_coap_optval_type` (copua.c:374-408): the fixed
option-type to value-class table, with libcoap's option numbers inlined. -/
def get_coap_optval_type (opt_type : Nat) : OptvalType :=
  if opt_type = 5 ∨ opt_type = 6 ∨ opt_type = 7 ∨ opt_type = 12 ∨
     opt_type = 14 ∨ opt_type = 17 ∨ opt_type = 23 ∨ opt_type = 27 ∨
     opt_type = 28 ∨ opt_type = 60 ∨ opt_type = 258 then
    OptvalType.uint
  else if opt_type = 3 ∨ opt_type = 8 ∨ opt_type = 11 ∨ opt_type = 15 ∨
          opt_type = 20 ∨ opt_type = 35 ∨ opt_type = 39 then
    OptvalType.string
  else if opt_type = 1 ∨ opt_type = 4 then
    OptvalType.opq
  else
    OptvalType.unknwn

/-- Embedding of the leading-zero-cutting loop of the `OPTVAL_UINT` case in
`l_coap_pdu_set_option` (copua.c:630): drop leading zero bytes while more
than one byte remains. -/
def cutLeadingZeroes : List Nat → List Nat
  | b :: c :: rest => if b = 0 then cutLeadingZeroes (c :: rest) else b :: c :: rest
  | l => l

/-- Big-endian 4-byte image of a `uint32_t` value, as built by the network
order conversion loop in `l_coap_pdu_set_option` (copua.c:625-627); the C
`(val_i >> (i << 3)) & 0xff` is division and `% 256` here. -/
def be4 (v : Nat) : List Nat :=
  [v / 16777216 % 256, v / 65536 % 256, v / 256 % 256, v % 256]

/-- Embedding of `l_coap_pdu_set_option` (copua.c:582-675) restricted to the
value-encoding part: given the option type and the Lua value argument,
produce the raw option bytes to be handed to `coap_add_option`, or the
raised error.  An absent argument (`none`) yields an empty option value. -/
def l_coap_pdu_set_option (opt_type : Nat) (arg : Option OptArg) :
    Except CErr (List Nat) :=
  match arg with
  | none => Except.ok []
  | some a =>
    let optval_type :=
      match get_coap_optval_type opt_type with
      | OptvalType.unknwn =>
        /- for option of unknown type deduce the type from the passed arg -/
        match a with
        | OptArg.num _ => OptvalType.uint
        | OptArg.str _ => OptvalType.string
        | OptArg.arr _ => OptvalType.opq
      | t => t
    match optval_type, a with
    | OptvalType.uint, OptArg.num n =>
      /- uint32_t val_i = luaL_checkinteger(...): truncate to 32 bits -/
      Except.ok (cutLeadingZeroes (be4 (n % 4294967296)))
    | OptvalType.uint, _ => Except.error CErr.invalidArgument
    | OptvalType.string, OptArg.str s => Except.ok s
    | OptvalType.string, _ => Except.error CErr.invalidArgument
    | OptvalType.opq, OptArg.arr bs =>
      if bs.length > 255 then Except.error CErr.optionTooLarge
      else Except.ok (bs.map (· % 256))
    | OptvalType.opq, _ => Except.error CErr.invalidArgument
    | OptvalType.unknwn, _ => Except.error CErr.invalidArgument

/-- Embedding of `_push_coap_opt_val` (copua.c:411-456): decode a raw option
value for the script, according to the option type's class.  The C
accumulator `v = (v << 8) | opt_val[i]` runs on `uint32_t`. -/
def push_coap_opt_val (opt_type : Nat) (raw : List Nat) : LuaVal :=
  if raw.length = 0 then LuaVal.nil
  else
    match get_coap_optval_type opt_type with
    | OptvalType.uint =>
      LuaVal.num (raw.foldl (fun v b => ((v <<< 8) % 4294967296) ||| b) 0)
    | OptvalType.string => LuaVal.str raw
    | OptvalType.opq => LuaVal.arr raw
    | OptvalType.unknwn => LuaVal.arr raw

/-- Embedding of `l_coap_pdu_get_option` (copua.c:540-565): scan the PDU's
option list (type, raw value) for the first option of the requested type;
return its decoded value plus the existence flag. -/
def l_coap_pdu_get_option (opt_type : Nat) (opts : List (Nat × List Nat)) :
    LuaVal × Bool :=
  match opts.find? (fun o => o.1 = opt_type) with
  | some o => (push_coap_opt_val opt_type o.2, true)
  | none => (LuaVal.nil, false)

/-- C `isspace` in the default locale: space plus the 0x09-0x0D control
characters (used by `strtrim` in common.c). -/
def isspace (b : Nat) : Bool :=
  b = 32 || (9 ≤ b && b ≤ 13)

/-- Embedding of the two-pointer loop of `strtrim` (common.c:18-31), with a
fuel argument standing for the loop's iteration bound; each iteration moves
one of the two pointers, so `l.length` iterations always suffice.  The loop
body runs only while the start pointer is strictly before the end pointer
(`s < e`), so a one-element list is returned unchanged even if its sole
byte is whitespace. -/
def strtrimLoop : Nat → List Nat → List Nat
  | 0, l => l
  | _ + 1, [] => []
  | _ + 1, [b] => [b]
  | fuel + 1, b :: c :: rest =>
    if isspace b then strtrimLoop fuel (c :: rest)
    else if isspace ((c :: rest).getLast (by simp)) then
      strtrimLoop fuel (b :: (c :: rest).dropLast)
    else b :: c :: rest

/-- Embedding of `strtrim` (common.c:18-31): trim leading and trailing
whitespace with the two-pointer loop. -/
def strtrim (l : List Nat) : List Nat :=
  strtrimLoop l.length l

/-- Embedding of the content-parsing part of `_parse_next_coap_qstr_param`
(copua.c:840-870): split a Uri-Query option's raw bytes on the first `=`
byte (61); the name is everything before it (the whole content when no `=`
is present, matching the C loop running off the end), the value everything
after it.  Name and value are trimmed only when non-empty, exactly as the
C guards `if (*name_len)` / `if (*val_len)` do. -/
def parse_qstr_raw (raw : List Nat) : List Nat × List Nat :=
  let name_len := raw.findIdx (fun b => b = 61)
  let name0 := raw.take name_len
  let val0 := if name_len < raw.length then raw.drop (name_len + 1) else []
  let name := if name0.length ≠ 0 then strtrim name0 else name0
  let val := if val0.length ≠ 0 then strtrim val0 else val0
  (name, val)

/-- State of the engine's option cursor.  Modelled from the spec: libcoap's
`coap_opt_iterator_t` / `coap_option_next` (an out-of-scope collaborator,
not part of this repository's sources) is a single-pass cursor over the
message's remaining options carrying a `bad` flag; `coap_option_next`
yields the next option, and on exhaustion sets `bad` and yields nothing,
every later call yielding nothing as well. -/
structure OptIter where
  bad : Bool
  rem : List (Nat × List Nat)
  deriving DecidableEq, Repr

/-- Modelled from the spec: libcoap's `coap_option_next` engine cursor step
(see `OptIter`). -/
def coap_option_next (it : OptIter) : Option (Nat × List Nat) × OptIter :=
  if it.bad then (none, it)
  else
    match it.rem with
    | [] => (none, { it with bad := true })
    | o :: rest => (some o, { it with rem := rest })

/-- Embedding of `_coap_option_iter` (copua.c:459-482): one pull of the
options iteration-function.  Returns the completion sentinel (`none`) when
the cursor is bad or exhausted, otherwise the option's type with its
decoded value, plus the advanced cursor. -/
def coap_option_iter (it : OptIter) : Option (Nat × LuaVal) × OptIter :=
  match coap_option_next it with
  | (none, it_fin) => (none, it_fin)
  | (some (t, raw), it_nxt) => (some (t, push_coap_opt_val t raw), it_nxt)

/-- State of the query-string-parameter iterator, mirroring
`coap_qstr_param_iter_state_t` (copua.c:117-124): the retained filter-name
references plus the engine cursor over the message's Uri-Query options. -/
structure QstrIterState where
  refs : List (List Nat)
  iter : OptIter
  deriving DecidableEq, Repr

/-- Inner loop of `_coap_qstr_param_iter` (the `next_iter` goto loop,
copua.c:886-932), recursing over the options left on the cursor: skip
parameters whose (post-processing) name is empty and parameters filtered
out by the retained names; on exhaustion free the iteration state
(`_free_coap_qstr_param_iter_state`, copua.c:825-834), which releases all
retained references and zeroes the count.  The result carries the yielded
parameter (or the `none` sentinel), the new state, and the number of
references released during this call. -/
def qstr_iter_go (refs : List (List Nat)) :
    List (Nat × List Nat) →
      Option (List Nat × Option (List Nat)) × QstrIterState × Nat
  | [] =>
    /- coap_option_next set the cursor bad; the state is freed -/
    (none, ⟨[], ⟨true, []⟩⟩, refs.length)
  | (_, raw) :: rest =>
    let nv := parse_qstr_raw raw
    if nv.1.length = 0 then qstr_iter_go refs rest
    else if refs.isEmpty || refs.contains nv.1 then
      (some (nv.1, if nv.2.length > 0 then some nv.2 else none),
        ⟨refs, ⟨false, rest⟩⟩, 0)
    else qstr_iter_go refs rest

/-- Embedding of `_coap_qstr_param_iter` (copua.c:873-933): one pull of the
query-string-parameter iteration-function. -/
def coap_qstr_param_iter (st : QstrIterState) :
    Option (List Nat × Option (List Nat)) × QstrIterState × Nat :=
  if st.iter.bad then (none, ⟨[], st.iter⟩, st.refs.length)
  else qstr_iter_go st.refs st.iter.rem

/-- Embedding of `l_coap_pdu_qstr_params` (copua.c:953-994): construct the
query-parameter iteration state for a message whose Uri-Query options are
`uri_query_opts`, retaining the passed filter names; more than
`MAX_QSTR_PARAMS_ARGS` (10) names raise an error. -/
def l_coap_pdu_qstr_params (names : List (List Nat))
    (uri_query_opts : List (Nat × List Nat)) : Except CErr QstrIterState :=
  if names.length > 10 then Except.error CErr.tooManyFilterArgs
  else Except.ok ⟨names, ⟨false, uri_query_opts⟩⟩

/-- Embedding of `l_coap_pdu_get_qstr_param` (copua.c:1012-1066): linear
scan of the message's Uri-Query options' raw values for the first
parameter whose name equals the requested one; empty-named parameters are
skipped.  Returns (value-or-none, exists). -/
def l_coap_pdu_get_qstr_param (qstr_param : List Nat) :
    List (List Nat) → Option (List Nat) × Bool
  | [] => (none, false)
  | raw :: rest =>
    let nv := parse_qstr_raw raw
    if nv.1.length = 0 then l_coap_pdu_get_qstr_param qstr_param rest
    else if nv.1 = qstr_param then
      (if nv.2.length > 0 then some nv.2 else none, true)
    else l_coap_pdu_get_qstr_param qstr_param rest

/-- Embedding of the segment-scanning loop of `l_coap_pdu_set_uri_path`
for the string form (copua.c:775-798), with index `i`, segment start `b`
(`none` encodes the C's `-1`) and a fuel bound (`uri.length - i`
iterations always suffice).  Emits, in order, the raw values of the
Uri-Path options added via `coap_add_option`. -/
def uriSegsLoop (uri : List Nat) : Nat → Nat → Option Nat → List (List Nat)
  | 0, _, _ => []
  | fuel + 1, i, b =>
    if i < uri.length then
      let c := uri.getD i 0
      let bNew := if b = none && c ≠ 47 then some i else b
      match bNew with
      | none => uriSegsLoop uri fuel (i + 1) none
      | some bi =>
        if c = 47 then
          ((uri.drop bi).take (i - bi)) :: uriSegsLoop uri fuel (i + 1) none
        else if i + 1 ≥ uri.length then
          [(uri.drop bi).take (uri.length - bi)]
        else uriSegsLoop uri fuel (i + 1) (some bi)
    else []

/-- Embedding of `l_coap_pdu_set_uri_path` (copua.c:770-822), string form:
the sequence of Uri-Path option values added for a slash-delimited path
string. -/
def l_coap_pdu_set_uri_path_str (uri : List Nat) : List (List Nat) :=
  uriSegsLoop uri uri.length 0 none

/-- Embedding of `l_coap_pdu_set_uri_path` (copua.c:799-817), strings-array
form: one Uri-Path option is added per array element, each with the
element's bytes as its raw value (empty elements included). -/
def l_coap_pdu_set_uri_path_arr (segs : List (List Nat)) : List (List Nat) :=
  segs

/-- Embedding of `l_coap_pdu_get_uri_path` (copua.c:689-758), string form:
concatenate `/` followed by the segment for every Uri-Path option whose
value is non-empty (the C guard `opt_len > 0 && opt_val`); an empty result
(no Uri-Path options at all, or only empty-valued ones) yields `none`
(Lua nil). -/
def l_coap_pdu_get_uri_path_str (opts : List (List Nat)) : Option (List Nat) :=
  let str := opts.foldl (fun acc v => if v.length > 0 then acc ++ 47 :: v else acc) []
  if str.length ≠ 0 then some str else none

/-- Handler association of a PDU object: `ACS_NO_HNDLR` (0, created by
`new_msg`), `ACS_REQ_HNDLR` (1), `ACS_RESP_HNDLR` (2), `ACS_NACK_HNDLR`
(3) (copua.c:81-84). -/
def ACS_NO_HNDLR : Nat := 0

/-- Request-handler association tag (copua.c:82). -/
def ACS_REQ_HNDLR : Nat := 1

/-- Response-handler association tag (copua.c:83). -/
def ACS_RESP_HNDLR : Nat := 2

/-- NACK-handler association tag (copua.c:84). -/
def ACS_NACK_HNDLR : Nat := 3

/-- Embedding of a PDU userdata object `ud_coap_pdu_t` (copua.c:87-103)
together with the PDU fields the claims touch: the 16-bit message id
(`pdu->tid`), the 8-bit code (`pdu->code`), the payload, the default code
used by the finalize-send path, and the access-mode bitfield (`ro`, `lck`,
`hndlr`). -/
structure UdCoapPdu where
  tid : Nat
  code : Nat
  payload : List Nat
  def_code : Nat
  ro : Bool
  lck : Bool
  hndlr : Nat
  deriving DecidableEq, Repr

/-- Base read access method names `r_funcs` of `_pdu_obj_dispacher`
(copua.c:2095-2107). -/
def r_funcs : List String :=
  ["get_type", "get_code", "get_msg_id", "get_token", "options",
   "get_option", "get_uri_path", "qstr_params", "get_qstr_param",
   "get_payload"]

/-- Base write access method names `w_funcs` (copua.c:2110-2118). -/
def w_funcs : List String :=
  ["set_type", "set_code", "set_msg_id", "set_token", "set_option",
   "set_uri_path"]

/-- Handler-common read access method names `r_cmnh_funcs` (copua.c:2121-2124). -/
def r_cmnh_funcs : List String :=
  ["get_connection"]

/-- Request-handler-specific write access method names `w_reqh_funcs`
(copua.c:2127-2130). -/
def w_reqh_funcs : List String :=
  ["send"]

/-- Embedding of `_pdu_obj_dispacher` (copua.c:2092-2184): resolve a method
name against the object's access mode.  A locked object fails every
lookup; otherwise base reads, handler-common reads, then (unless
read-only) base writes and request-handler writes are consulted; an
unresolved name raises the invalid-method error. -/
def pdu_obj_dispacher (ud : UdCoapPdu) (fname : String) : Except CErr String :=
  if ud.lck then Except.error CErr.objectLocked
  else if r_funcs.contains fname then Except.ok fname
  else if (ud.hndlr = ACS_REQ_HNDLR ∨ ud.hndlr = ACS_RESP_HNDLR ∨
           ud.hndlr = ACS_NACK_HNDLR) ∧ r_cmnh_funcs.contains fname then
    Except.ok fname
  else if ud.ro then Except.error CErr.invalidMethod
  else if w_funcs.contains fname then Except.ok fname
  else if ud.hndlr = ACS_REQ_HNDLR ∧ w_reqh_funcs.contains fname then
    Except.ok fname
  else Except.error CErr.invalidMethod

/-- Embedding of the `COAP_RESPONSE_CODE` macro of libcoap:
`(((N)/100 << 5) | ((N)%100))`. -/
def COAP_RESPONSE_CODE (n : Nat) : Nat :=
  ((n / 100) <<< 5) ||| (n % 100)

/-- Embedding of `l_coap_pdu_send_reqh` (copua.c:1197-1222), the
request-handler finalize-send: set the code (explicit argument, already
present code, or the default code), attach the payload, and lock the
object. -/
def l_coap_pdu_send_reqh (codeArg : Option Nat) (payload : List Nat)
    (ud : UdCoapPdu) : UdCoapPdu :=
  let ud1 :=
    match codeArg with
    | some c => { ud with code := COAP_RESPONSE_CODE c }
    | none => ud
  let ud2 :=
    if ud1.code = 0 then { ud1 with code := COAP_RESPONSE_CODE ud1.def_code }
    else ud1
  { ud2 with payload := payload, lck := true }

/-- Embedding of `l_coap_conn_send` (copua.c:1402-1427).  `engineOk` models
whether the engine's `coap_send` succeeds.  The result carries the raised
error if any, the (possibly updated) PDU object, and whether an
engine-send failure was logged: a handler-associated object is rejected
untouched; otherwise the payload is attached and the object locked, an
engine failure being only logged. -/
def l_coap_conn_send (ud : UdCoapPdu) (payload : List Nat) (engineOk : Bool) :
    Option CErr × UdCoapPdu × Bool :=
  if ud.hndlr ≠ ACS_NO_HNDLR then (some CErr.wrongSendPath, ud, false)
  else (none, { ud with payload := payload, lck := true }, !engineOk)

/-- Wrap of a Lua integer into a C `int` (32-bit two's complement), as in
the assignment `int msg_id = luaL_checkinteger(...)`. -/
def toCInt (m : Int) : Int :=
  (m + 2147483648) % 4294967296 - 2147483648

/-- Embedding of `l_coap_pdu_set_msg_id` (copua.c:269-276): the argument is
narrowed to `int` and then stored through the cast `(uint16_t)msg_id`; no
range check is performed and no error raised. -/
def l_coap_pdu_set_msg_id (m : Int) (ud : UdCoapPdu) : UdCoapPdu :=
  { ud with tid := ((toCInt m) % 65536).toNat }

/-- Embedding of `l_coap_pdu_get_msg_id` (copua.c:254-259): push the stored
16-bit `pdu->tid`. -/
def l_coap_pdu_get_msg_id (ud : UdCoapPdu) : Nat :=
  ud.tid

/-- Embedding of the connection session fields touched by the claims:
`session->max_retransmit` (C `unsigned int`) and the two `uint16_t` halves
of `session->ack_timeout` (libcoap `coap_fixed_point_t`). -/
structure CoapSession where
  max_retransmit : Nat
  ack_timeout_int : Nat
  ack_timeout_frac : Nat
  deriving DecidableEq, Repr

/-- Embedding of `l_coap_conn_set_max_retransmit` (copua.c:1333-1344): the
Lua integer is converted to C `unsigned` (modulo 2^32); the only guard is
`assert(max_retransmit > 0)`, modelled as the `Except.error ()` branch (a
C assertion failure aborts the process in debug builds and is compiled
out under NDEBUG; it is not a script-visible error). -/
def l_coap_conn_set_max_retransmit (v : Int) (s : CoapSession) :
    Except Unit CoapSession :=
  let uv := (v % 4294967296).toNat
  if uv > 0 then Except.ok { s with max_retransmit := uv }
  else Except.error ()

/-- Embedding of `l_coap_conn_set_ack_timeout` (copua.c:1370-1384): the
millisecond timeout is converted to C `unsigned`, guarded only by
`assert(timeout > 0)`, and decomposed into whole seconds plus millisecond
remainder (each stored in a `uint16_t` field). -/
def l_coap_conn_set_ack_timeout (t : Int) (s : CoapSession) :
    Except Unit CoapSession :=
  let ut := (t % 4294967296).toNat
  if ut > 0 then
    Except.ok { s with ack_timeout_int := ut / 1000 % 65536,
                       ack_timeout_frac := ut % 1000 % 65536 }
  else Except.error ()

/-- Embedding of `l_coap_conn_get_ack_timeout` (copua.c:1354-1360):
`1000 * integer_part + fractional_part`. -/
def l_coap_conn_get_ack_timeout (s : CoapSession) : Nat :=
  1000 * s.ack_timeout_int + s.ack_timeout_frac

/-- Value returned by the script's response handler, as the bridge
classifies it: a boolean, nil (also covering a handler that returns
nothing), or any other Lua value. -/
inductive RespRet where
  | boolean (b : Bool)
  | nil
  | other
  deriving DecidableEq, Repr

/-- CoAP message type numbers (libcoap): CON. -/
def COAP_MESSAGE_CON : Nat := 0

/-- CoAP message type numbers (libcoap): ACK. -/
def COAP_MESSAGE_ACK : Nat := 2

/-- Embedding of the post-handler part of `_coap_resp_hndlr`
(copua.c:1962-2027).  `handlerRan` is false when neither a registered nor
the well-known global handler resolved (the bridge then jumps to `finish`
with the default).  Returns the synthesized empty Acknowledgment
`(type, code, msg id)` when one is sent, plus whether the
invalid-return-type warning was logged. -/
def coap_resp_hndlr (handlerRan : Bool) (ret : RespRet)
    (recvType recvTid : Nat) : Option (Nat × Nat × Nat) × Bool :=
  let handle_ack_warn :=
    if handlerRan then
      match ret with
      | RespRet.boolean b => (b, false)
      | RespRet.nil => (true, false)
      | RespRet.other => (true, true)
    else (true, false)
  (if handle_ack_warn.1 && recvType = COAP_MESSAGE_CON then
     some (COAP_MESSAGE_ACK, 0, recvTid)
   else none,
   handle_ack_warn.2)

/-! Theorems about the embedded operations, one per claim. -/

/-- Helper: the finalize-send always ends with the object locked,
whatever the code argument and code state. -/
theorem send_reqh_lck (codeArg : Option Nat) (payload : List Nat)
    (ud : UdCoapPdu) : (l_coap_pdu_send_reqh codeArg payload ud).lck = true := by
  unfold l_coap_pdu_send_reqh
  cases codeArg <;> dsimp

/-- Claim C1: a message object in the `locked` access state fails every
operation resolved through the PDU method dispatcher with the
ObjectLocked error; a writable-handler object (request-handler response:
not read-only, not locked, `ACS_REQ_HNDLR`) resolves `send`, its
finalize-send transitions it to `locked`, and afterwards every dispatch
(in particular a second `send`) fails with ObjectLocked. -/
theorem locked_pdu_dispatch_spec (ud : UdCoapPdu) (fname : String)
    (codeArg : Option Nat) (payload : List Nat) :
    (ud.lck = true → pdu_obj_dispacher ud fname = Except.error CErr.objectLocked) ∧
    (ud.lck = false → ud.ro = false → ud.hndlr = ACS_REQ_HNDLR →
      pdu_obj_dispacher ud "send" = Except.ok "send" ∧
      (l_coap_pdu_send_reqh codeArg payload ud).lck = true ∧
      pdu_obj_dispacher (l_coap_pdu_send_reqh codeArg payload ud) fname =
        Except.error CErr.objectLocked) := by
  constructor
  · intro h
    simp [pdu_obj_dispacher, h]
  · intro h1 h2 h3
    refine ⟨?_, send_reqh_lck codeArg payload ud, ?_⟩
    · simp [pdu_obj_dispacher, h1, h2, h3, r_funcs, r_cmnh_funcs, w_funcs,
        w_reqh_funcs, ACS_REQ_HNDLR, ACS_RESP_HNDLR, ACS_NACK_HNDLR]
    · simp [pdu_obj_dispacher, send_reqh_lck codeArg payload ud]

/-- Witness for claim C1 at a concrete locked object and a concrete
writable-handler object. -/
theorem locked_pdu_dispatch_spec_witness :
    pdu_obj_dispacher ⟨0, 0, [], 205, false, true, 1⟩ "get_type" =
      Except.error CErr.objectLocked ∧
    (pdu_obj_dispacher ⟨0, 0, [], 205, false, false, 1⟩ "send" =
        Except.ok "send" ∧
      (l_coap_pdu_send_reqh none [111, 107] ⟨0, 0, [], 205, false, false, 1⟩).lck = true ∧
      pdu_obj_dispacher
        (l_coap_pdu_send_reqh none [111, 107] ⟨0, 0, [], 205, false, false, 1⟩)
        "send" = Except.error CErr.objectLocked) :=
  ⟨(locked_pdu_dispatch_spec ⟨0, 0, [], 205, false, true, 1⟩ "get_type" none []).1 rfl,
   (locked_pdu_dispatch_spec ⟨0, 0, [], 205, false, false, 1⟩ "send" none
     [111, 107]).2 rfl rfl rfl⟩

/-- Claim C5: connection send rejects every message object that originated
from a handler with the WrongSendPath error leaving the object untouched;
a fresh (`ACS_NO_HNDLR`) message gets the payload attached and is locked,
and an engine-level send failure is only logged — the call raises no
error and the object still ends locked. -/
theorem conn_send_spec (ud : UdCoapPdu) (payload : List Nat) (engineOk : Bool) :
    (ud.hndlr ≠ ACS_NO_HNDLR →
      l_coap_conn_send ud payload engineOk = (some CErr.wrongSendPath, ud, false)) ∧
    (ud.hndlr = ACS_NO_HNDLR →
      l_coap_conn_send ud payload engineOk =
        (none, { ud with payload := payload, lck := true }, !engineOk)) := by
  constructor
  · intro h
    simp [l_coap_conn_send, h]
  · intro h
    simp [l_coap_conn_send, h, ACS_NO_HNDLR]

/-- Witness for claim C5: a handler-originated object is rejected
unchanged; a fresh object is locked with the payload attached even when
the engine send fails (the failure only being logged). -/
theorem conn_send_spec_witness :
    l_coap_conn_send ⟨0, 0, [], 0, true, false, 2⟩ [1] true =
      (some CErr.wrongSendPath, ⟨0, 0, [], 0, true, false, 2⟩, false) ∧
    l_coap_conn_send ⟨0, 0, [], 0, false, false, 0⟩ [1] false =
      (none, ⟨0, 0, [1], 0, false, true, 0⟩, true) :=
  ⟨(conn_send_spec ⟨0, 0, [], 0, true, false, 2⟩ [1] true).1 (by decide),
   (conn_send_spec ⟨0, 0, [], 0, false, false, 0⟩ [1] false).2 rfl⟩

/-- Claim C8: the response-handler bridge synthesizes and sends an empty
Acknowledgment (ACK type, code 0, the received message id) exactly when
the should-auto-acknowledge boolean is true — the handler returned
`true`, returned nil/nothing, returned a non-boolean (with a logged
warning), or never ran — and the received message is Confirmable; the
warning is logged exactly for a non-nil non-boolean return. -/
theorem resp_hndlr_ack_spec (handlerRan : Bool) (ret : RespRet) (rt tid : Nat) :
    ((coap_resp_hndlr handlerRan ret rt tid).1 =
        some (COAP_MESSAGE_ACK, 0, tid) ↔
      (handlerRan = false ∨ ret = RespRet.nil ∨ ret = RespRet.other ∨
        ret = RespRet.boolean true) ∧ rt = COAP_MESSAGE_CON) ∧
    ((coap_resp_hndlr handlerRan ret rt tid).1 = some (COAP_MESSAGE_ACK, 0, tid) ∨
      (coap_resp_hndlr handlerRan ret rt tid).1 = none) ∧
    ((coap_resp_hndlr handlerRan ret rt tid).2 = true ↔
      handlerRan = true ∧ ret = RespRet.other) := by
  rcases Nat.eq_zero_or_pos rt with h | h
  · subst h
    cases handlerRan <;> rcases ret with b | _ | _ <;>
      first
        | (cases b <;> simp [coap_resp_hndlr, COAP_MESSAGE_CON, COAP_MESSAGE_ACK])
        | simp [coap_resp_hndlr, COAP_MESSAGE_CON, COAP_MESSAGE_ACK]
  · have hrt : rt ≠ COAP_MESSAGE_CON := by
      simp [COAP_MESSAGE_CON]; omega
    cases handlerRan <;> rcases ret with b | _ | _ <;>
      first
        | (cases b <;> simp [coap_resp_hndlr, hrt])
        | simp [coap_resp_hndlr, hrt]

/-- Claim C10: for every Lua integer `m`, `set_msg_id(m)` followed by
`get_msg_id()` returns `m` modulo 2^16: the id is silently narrowed to C
`int` and truncated through the `(uint16_t)` cast, with no error raised
(the setter is total). -/
theorem msg_id_roundtrip (m : Int) (ud : UdCoapPdu) :
    l_coap_pdu_get_msg_id (l_coap_pdu_set_msg_id m ud) = (m % 65536).toNat := by
  simp only [l_coap_pdu_get_msg_id, l_coap_pdu_set_msg_id, toCInt]
  omega

/-- Claim C9 (failing input): the setters guard the argument only with a C
`assert` after converting it to `unsigned`, so the negative argument -1
becomes 4294967295, passes the guard and is stored — no InvalidArgument
error is raised for a value that is not greater than 0; 0 trips the
assertion (modelled by the error branch) rather than raising a
script-visible error.  A valid millisecond timeout is decomposed into
whole seconds plus remainder so that the getter returns it unchanged. -/
theorem retransmit_timeout_assert_bug :
    l_coap_conn_set_max_retransmit (-1) ⟨4, 2, 0⟩ =
      Except.ok ⟨4294967295, 2, 0⟩ ∧
    l_coap_conn_set_ack_timeout (-1) ⟨4, 2, 0⟩ = Except.ok ⟨4, 35127, 295⟩ ∧
    l_coap_conn_set_max_retransmit 0 ⟨4, 2, 0⟩ = Except.error () ∧
    l_coap_conn_set_ack_timeout 2500 ⟨4, 2, 0⟩ = Except.ok ⟨4, 2, 500⟩ ∧
    l_coap_conn_get_ack_timeout ⟨4, 2, 500⟩ = 2500 :=
  ⟨rfl, rfl, rfl, rfl, rfl⟩

/-- Claim C6 (counterexample): the empty opaque byte sequence (length 0,
certainly at most 255) does not survive the set/get round trip — the
read path pushes nil for a zero-length option value, not the empty
bytes-array (option type 4 is ETag, Opaque-classified). -/
theorem opq_empty_roundtrip_ctrex :
    l_coap_pdu_set_option 4 (some (OptArg.arr [])) = Except.ok [] ∧
    l_coap_pdu_get_option 4 [(4, [])] = (LuaVal.nil, true) ∧
    LuaVal.nil ≠ LuaVal.arr [] :=
  ⟨rfl, by decide, by decide⟩

/-- Claim C6 (amended): for every non-empty opaque byte sequence of length
at most 255, setting it as an Opaque option value and reading the option
back returns the same sequence; a zero-length sequence reads back as nil;
a sequence longer than 255 bytes (in particular length 256) fails with
OptionTooLarge, so no option is added. -/
theorem opq_roundtrip_spec (bs : List Nat) :
    ((∀ b ∈ bs, b < 256) → bs ≠ [] → bs.length ≤ 255 →
      l_coap_pdu_set_option 4 (some (OptArg.arr bs)) = Except.ok bs ∧
      l_coap_pdu_get_option 4 [(4, bs)] = (LuaVal.arr bs, true)) ∧
    (bs.length > 255 →
      l_coap_pdu_set_option 4 (some (OptArg.arr bs)) =
        Except.error CErr.optionTooLarge) := by
  constructor
  · intro hlt hne hlen
    have hmap : bs.map (· % 256) = bs := by
      conv_rhs => rw [← List.map_id bs]
      exact List.map_congr_left fun b hb => Nat.mod_eq_of_lt (hlt b hb)
    have hset : l_coap_pdu_set_option 4 (some (OptArg.arr bs)) = Except.ok bs := by
      simp [l_coap_pdu_set_option, get_coap_optval_type, hmap]
      omega
    refine ⟨hset, ?_⟩
    simp [l_coap_pdu_get_option, push_coap_opt_val, get_coap_optval_type, hne]
  · intro hlen
    simp [l_coap_pdu_set_option, get_coap_optval_type, hlen]

/-- Witness for claim C6 (amended) at the two-byte sequence `[170, 0]`. -/
theorem opq_roundtrip_spec_witness :
    l_coap_pdu_set_option 4 (some (OptArg.arr [170, 0])) = Except.ok [170, 0] ∧
    l_coap_pdu_get_option 4 [(4, [170, 0])] = (LuaVal.arr [170, 0], true) :=
  (opq_roundtrip_spec [170, 0]).1 (by decide) (by decide) (by decide)

/-- Helper: one step of the uint option-value accumulator
`v = (v << 8) | opt_val[i]` equals the arithmetic `256 * v + b` while the
accumulator stays below 2^24 and the byte below 256. -/
theorem step_or (a b : Nat) (ha : a < 16777216) (hb : b < 256) :
    ((a <<< 8) % 4294967296) ||| b = 256 * a + b := by
  have h1 : (a <<< 8) % 4294967296 = 2 ^ 8 * a := by
    rw [Nat.shiftLeft_eq]
    rw [Nat.mul_comm]
    apply Nat.mod_eq_of_lt
    omega
  rw [h1, ← Nat.mul_add_lt_is_or (show b < 2 ^ 8 by omega) a]

/-- Helper: explicit description of the leading-zero-cut big-endian image
of a 32-bit value, by magnitude range. -/
theorem cut_be4 (v : Nat) (h : v < 4294967296) :
    cutLeadingZeroes (be4 v) =
      if v < 256 then [v]
      else if v < 65536 then [v / 256, v % 256]
      else if v < 16777216 then [v / 65536, v / 256 % 256, v % 256]
      else [v / 16777216, v / 65536 % 256, v / 256 % 256, v % 256] := by
  unfold be4
  split_ifs with h1 h2 h3
  · have e1 : v / 16777216 % 256 = 0 := by omega
    have e2 : v / 65536 % 256 = 0 := by omega
    have e3 : v / 256 % 256 = 0 := by omega
    have e4 : v % 256 = v := by omega
    simp [e1, e2, e3, e4, cutLeadingZeroes]
  · have e1 : v / 16777216 % 256 = 0 := by omega
    have e2 : v / 65536 % 256 = 0 := by omega
    have e3 : v / 256 % 256 = v / 256 := by omega
    have e4 : v / 256 ≠ 0 := by omega
    simp [e1, e2, e3, e4, cutLeadingZeroes]
  · have e1 : v / 16777216 % 256 = 0 := by omega
    have e2 : v / 65536 % 256 = v / 65536 := by omega
    have e4 : v / 65536 ≠ 0 := by omega
    simp [e1, e2, e4, cutLeadingZeroes]
  · have e1 : v / 16777216 % 256 = v / 16777216 := by omega
    have e4 : v / 16777216 ≠ 0 := by omega
    simp [e1, e4, cutLeadingZeroes]

/-- Helper: reading the only option of a message returns its decoded value
with the existence flag set. -/
theorem get_push (opt_type : Nat) (raw : List Nat) :
    l_coap_pdu_get_option opt_type [(opt_type, raw)] =
      (push_coap_opt_val opt_type raw, true) := by
  simp [l_coap_pdu_get_option, List.find?]

/-- Claim C2: for every `v` representable in 32 bits, encoding `v` as a
UInt-classified option value (option type 7, Uri-Port) and decoding it
through the option read path returns `v`; the encoding is minimal
big-endian: at most 4 bytes, no leading zero byte unless `v = 0`, in
which case it is exactly the single byte 0. -/
theorem uint_opt_roundtrip (v : Nat) (h : v < 4294967296) :
    ∃ bytes,
      l_coap_pdu_set_option 7 (some (OptArg.num v)) = Except.ok bytes ∧
      l_coap_pdu_get_option 7 [(7, bytes)] = (LuaVal.num v, true) ∧
      bytes.length ≤ 4 ∧
      (v ≠ 0 → bytes.head? ≠ some 0) ∧
      (v = 0 → bytes = [0]) := by
  have hv : v % 4294967296 = v := Nat.mod_eq_of_lt h
  have henc : l_coap_pdu_set_option 7 (some (OptArg.num v)) =
      Except.ok (cutLeadingZeroes (be4 v)) := by
    simp [l_coap_pdu_set_option, get_coap_optval_type, hv]
  refine ⟨cutLeadingZeroes (be4 v), henc, ?_, ?_, ?_, ?_⟩ <;>
    rw [cut_be4 v h] <;> split_ifs with h1 h2 h3
  · rw [get_push]
    simp only [push_coap_opt_val, get_coap_optval_type]
    norm_num
  · rw [get_push]
    simp only [push_coap_opt_val, get_coap_optval_type]
    norm_num
    rw [step_or (v / 256) (v % 256) (by omega) (by omega)]
    omega
  · rw [get_push]
    simp only [push_coap_opt_val, get_coap_optval_type]
    norm_num
    rw [step_or (v / 65536) (v / 256 % 256) (by omega) (by omega),
      step_or (256 * (v / 65536) + v / 256 % 256) (v % 256) (by omega) (by omega)]
    omega
  · rw [get_push]
    simp only [push_coap_opt_val, get_coap_optval_type]
    norm_num
    rw [step_or (v / 16777216) (v / 65536 % 256) (by omega) (by omega),
      step_or (256 * (v / 16777216) + v / 65536 % 256) (v / 256 % 256) (by omega)
        (by omega),
      step_or (256 * (256 * (v / 16777216) + v / 65536 % 256) + v / 256 % 256)
        (v % 256) (by omega) (by omega)]
    omega
  · simp
  · simp
  · simp
  · simp
  · intro hne
    simp
    omega
  · intro hne
    simp
    omega
  · intro hne
    simp
    omega
  · intro hne
    simp
    omega
  · intro h0
    simp [h0]
  · intro h0
    exact absurd h0 (by omega)
  · intro h0
    exact absurd h0 (by omega)
  · intro h0
    exact absurd h0 (by omega)

/-- Witness for claim C2 at `v = 258` (encoded as the two bytes 1, 2). -/
theorem uint_opt_roundtrip_witness :
    (258 : Nat) < 4294967296 ∧
    ∃ bytes,
      l_coap_pdu_set_option 7 (some (OptArg.num 258)) = Except.ok bytes ∧
      l_coap_pdu_get_option 7 [(7, bytes)] = (LuaVal.num 258, true) ∧
      bytes.length ≤ 4 ∧
      ((258 : Nat) ≠ 0 → bytes.head? ≠ some 0) ∧
      ((258 : Nat) = 0 → bytes = [0]) :=
  ⟨by norm_num, uint_opt_roundtrip 258 (by norm_num)⟩

/-- Helper: the two-pointer trim loop never turns a non-empty byte string
into an empty one — the loop stops as soon as the two pointers meet, so
at least one byte always survives. -/
theorem strtrimLoop_ne_nil (fuel : Nat) :
    ∀ l : List Nat, l ≠ [] → strtrimLoop fuel l ≠ [] := by
  induction fuel with
  | zero =>
    intro l h
    simpa [strtrimLoop] using h
  | succ n ih =>
    intro l h
    match l with
    | [b] => simp [strtrimLoop]
    | b :: c :: rest =>
      simp only [strtrimLoop]
      split
      · exact ih (c :: rest) (by simp)
      · split
        · exact ih (b :: (c :: rest).dropLast) (by simp)
        · simp

/-- Claim C3 (counterexample): the Uri-Query raw bytes `" = x"` do surface
to the caller — the name part before `=` is the single space `" "`, and
`strtrim` leaves a lone whitespace byte in place (the two-pointer loop
body only runs while start < end), so the post-trim name is `" "`, not
empty: the unfiltered query-parameter iterator yields the pair
(`" "`, `"x"`) instead of skipping it, and `get_qstr_param(" ")` finds
it.  Option type 15 is Uri-Query. -/
theorem qstr_wsname_surfaces_ctrex :
    (coap_qstr_param_iter ⟨[], ⟨false, [(15, [32, 61, 32, 120])]⟩⟩).1 =
      some ([32], some [120]) ∧
    l_coap_pdu_get_qstr_param [32] [[32, 61, 32, 120]] = (some [120], true) := by
  decide

/-- Claim C3 (amended): query parsing splits a Uri-Query option's raw
bytes on the first `=` (no `=` means a name with no value); name and
value are trimmed by `strtrim`, which never produces an empty string
from a non-empty one (an all-whitespace token keeps one whitespace
byte); a parameter is skipped by both the iterator and `get_qstr_param`
exactly when its name is empty before trimming (the option is empty or
starts with `=`) — so `" name = val "` yields name `"name"` and value
`"val"`, `"flag"` yields name `"flag"` with no value, `"=x"` never
surfaces, but `" = x"` surfaces with name `" "`. -/
theorem qstr_parse_spec :
    (∀ l : List Nat, l ≠ [] → strtrim l ≠ []) ∧
    (∀ (raw : List Nat) (more : List (Nat × List Nat)) (refs : List (List Nat)),
      (parse_qstr_raw raw).1 = [] →
        coap_qstr_param_iter ⟨refs, ⟨false, (15, raw) :: more⟩⟩ =
          coap_qstr_param_iter ⟨refs, ⟨false, more⟩⟩) ∧
    (∀ (raw : List Nat) (rest : List (List Nat)) (p : List Nat),
      (parse_qstr_raw raw).1 = [] →
        l_coap_pdu_get_qstr_param p (raw :: rest) =
          l_coap_pdu_get_qstr_param p rest) ∧
    (∀ rest : List Nat, (parse_qstr_raw (61 :: rest)).1 = []) ∧
    (coap_qstr_param_iter ⟨[], ⟨false,
        [(15, [32, 110, 97, 109, 101, 32, 61, 32, 118, 97, 108, 32])]⟩⟩).1 =
      some ([110, 97, 109, 101], some [118, 97, 108]) ∧
    (coap_qstr_param_iter ⟨[], ⟨false, [(15, [102, 108, 97, 103])]⟩⟩).1 =
      some ([102, 108, 97, 103], none) := by
  refine ⟨fun l h => strtrimLoop_ne_nil l.length l h, ?_, ?_, ?_, by decide, by decide⟩
  · intro raw more refs h
    simp [coap_qstr_param_iter, qstr_iter_go, h]
  · intro raw rest p h
    simp [l_coap_pdu_get_qstr_param, h]
  · intro rest
    simp [parse_qstr_raw, List.findIdx_cons]

/-- Witness for claim C3 (amended): the trim of `" "` stays non-empty, and
an option starting with `=` is transparently skipped by the iterator. -/
theorem qstr_parse_spec_witness :
    strtrim [32] ≠ [] ∧
    coap_qstr_param_iter ⟨[], ⟨false, [(15, [61, 120]), (15, [102, 108, 97, 103])]⟩⟩ =
      coap_qstr_param_iter ⟨[], ⟨false, [(15, [102, 108, 97, 103])]⟩⟩ :=
  ⟨qstr_parse_spec.1 [32] (by decide),
   qstr_parse_spec.2.1 [61, 120] [(15, [102, 108, 97, 103])] [] (by decide)⟩

/-- Helper: whenever the query-parameter iteration loop reaches the
sentinel, the state it leaves behind is the freed one (no retained
references, cursor bad and drained) and the released count is the full
retained-reference count. -/
theorem qstr_go_none (refs : List (List Nat)) :
    ∀ rem : List (Nat × List Nat),
      (qstr_iter_go refs rem).1 = none →
        (qstr_iter_go refs rem).2 = (⟨[], ⟨true, []⟩⟩, refs.length) := by
  intro rem
  induction rem with
  | nil => intro _; rfl
  | cons o rest ih =>
    simp only [qstr_iter_go]
    split
    · exact ih
    · split
      · intro h
        simp at h
      · exact ih

/-- Claim C7: after the option iterator or the query-parameter iterator
returns the completion sentinel once, every further call returns the
sentinel again with the state unchanged; the completing call of the
query-parameter iterator releases exactly the retained filter-name
references and leaves none retained, so a later call releases nothing;
and constructing the query-parameter iterator with 11 or more filter
names fails with the TooManyFilterArgs error. -/
theorem iter_exhaustion_spec (it : OptIter) (st : QstrIterState)
    (names : List (List Nat)) (opts : List (Nat × List Nat)) :
    ((coap_option_iter it).1 = none →
      coap_option_iter (coap_option_iter it).2 = (none, (coap_option_iter it).2)) ∧
    ((coap_qstr_param_iter st).1 = none →
      (coap_qstr_param_iter st).2.2 = st.refs.length ∧
      (coap_qstr_param_iter st).2.1.refs = [] ∧
      coap_qstr_param_iter (coap_qstr_param_iter st).2.1 =
        (none, (coap_qstr_param_iter st).2.1, 0)) ∧
    (names.length ≥ 11 →
      l_coap_pdu_qstr_params names opts = Except.error CErr.tooManyFilterArgs) := by
  refine ⟨?_, ?_, ?_⟩
  · intro h
    by_cases hb : it.bad
    · simp [coap_option_iter, coap_option_next, hb]
    · match hrem : it.rem with
      | [] => simp [coap_option_iter, coap_option_next, hb, hrem]
      | o :: rest => simp [coap_option_iter, coap_option_next, hb, hrem] at h
  · intro h
    by_cases hb : st.iter.bad
    · simp [coap_qstr_param_iter, hb]
    · have hgo := qstr_go_none st.refs st.iter.rem
      simp only [coap_qstr_param_iter, hb, if_false, Bool.false_eq_true] at h ⊢
      rw [hgo h]
      refine ⟨rfl, rfl, ?_⟩
      simp [coap_qstr_param_iter]
  · intro h
    simp only [l_coap_pdu_qstr_params]
    rw [if_pos (by omega)]

/-- Witness for claim C7: an already-bad cursor keeps yielding the
sentinel, a single-filter iterator over no Uri-Query options releases its
one retained reference on the completing call and nothing afterwards,
and 11 filter names are rejected. -/
theorem iter_exhaustion_spec_witness :
    coap_option_iter (coap_option_iter ⟨false, []⟩).2 =
      (none, (coap_option_iter ⟨false, []⟩).2) ∧
    ((coap_qstr_param_iter ⟨[[120]], ⟨false, []⟩⟩).2.2 = 1 ∧
      (coap_qstr_param_iter ⟨[[120]], ⟨false, []⟩⟩).2.1.refs = [] ∧
      coap_qstr_param_iter (coap_qstr_param_iter ⟨[[120]], ⟨false, []⟩⟩).2.1 =
        (none, (coap_qstr_param_iter ⟨[[120]], ⟨false, []⟩⟩).2.1, 0)) ∧
    l_coap_pdu_qstr_params (List.replicate 11 [120]) [] =
      Except.error CErr.tooManyFilterArgs :=
  ⟨(iter_exhaustion_spec ⟨false, []⟩ ⟨[[120]], ⟨false, []⟩⟩
      (List.replicate 11 [120]) []).1 rfl,
   (iter_exhaustion_spec ⟨false, []⟩ ⟨[[120]], ⟨false, []⟩⟩
      (List.replicate 11 [120]) []).2.1 rfl,
   (iter_exhaustion_spec ⟨false, []⟩ ⟨[[120]], ⟨false, []⟩⟩
      (List.replicate 11 [120]) []).2.2 (by decide)⟩

/-- Claim C4 (counterexample): the strings-array form of `set_uri_path`
does not skip empty segments — the array `["a", "", "b"]` emits three
Uri-Path options including a zero-length one, while the claim's "one
option per non-empty segment" would give the two options that the
equivalent slash string `"a//b"` produces. -/
theorem uri_path_empty_seg_ctrex :
    l_coap_pdu_set_uri_path_arr [[97], [], [98]] = [[97], [], [98]] ∧
    l_coap_pdu_set_uri_path_str [97, 47, 47, 98] = [[97], [98]] ∧
    l_coap_pdu_set_uri_path_arr [[97], [], [98]] ≠ [[97], [98]] := by
  decide

/-- Helper: the unguarded path-concatenation fold never shrinks the
accumulator. -/
theorem foldl_path_len (segs : List (List Nat)) :
    ∀ acc : List Nat,
      acc.length ≤ (segs.foldl (fun a s => a ++ 47 :: s) acc).length := by
  induction segs with
  | nil => intro acc; simp
  | cons s rest ih =>
    intro acc
    calc acc.length ≤ (acc ++ 47 :: s).length := by simp
    _ ≤ _ := ih (acc ++ 47 :: s)

/-- Helper: on a list of non-empty segments the guarded concatenation fold
of `get_uri_path` coincides with the unguarded one. -/
theorem foldl_path_guard (segs : List (List Nat)) :
    ∀ acc : List Nat, (∀ s ∈ segs, s ≠ []) →
      segs.foldl (fun a v => if v.length > 0 then a ++ 47 :: v else a) acc =
        segs.foldl (fun a s => a ++ 47 :: s) acc := by
  induction segs with
  | nil => intro acc _; rfl
  | cons s rest ih =>
    intro acc h
    have hs : s ≠ [] := h s (by simp)
    have hlen : s.length > 0 := List.length_pos.mpr hs
    simp only [List.foldl, if_pos hlen]
    exact ih (acc ++ 47 :: s) (fun t ht => h t (by simp [ht]))

/-- Claim C4 (amended): the string form of `set_uri_path` emits one
Uri-Path option per non-empty slash-separated segment in order, while the
strings-array form emits one option per array element (empty elements
included, as zero-length options); on non-empty slash-free segments the
two forms agree (`["a","b","c"]` matches `"/a/b/c"`); `get_uri_path` in
string form concatenates `/` plus segment for every non-empty option
value, so parsing after composing `"/a/b/c"` yields `"/a/b/c"` again, and
a message without Uri-Path options parses to nil. -/
theorem uri_path_spec :
    (∀ segs : List (List Nat), l_coap_pdu_set_uri_path_arr segs = segs) ∧
    l_coap_pdu_set_uri_path_str [47, 97, 47, 98, 47, 99] = [[97], [98], [99]] ∧
    l_coap_pdu_set_uri_path_arr [[97], [98], [99]] =
      l_coap_pdu_set_uri_path_str [47, 97, 47, 98, 47, 99] ∧
    l_coap_pdu_get_uri_path_str
        (l_coap_pdu_set_uri_path_str [47, 97, 47, 98, 47, 99]) =
      some [47, 97, 47, 98, 47, 99] ∧
    l_coap_pdu_get_uri_path_str [] = none ∧
    (∀ segs : List (List Nat), (∀ s ∈ segs, s ≠ []) →
      l_coap_pdu_get_uri_path_str (l_coap_pdu_set_uri_path_arr segs) =
        if segs.isEmpty then none
        else some (segs.foldl (fun acc s => acc ++ 47 :: s) [])) := by
  refine ⟨fun segs => rfl, by decide, by decide, by decide, by decide, ?_⟩
  intro segs h
  match segs with
  | [] => rfl
  | s :: rest =>
    have hs : s ≠ [] := h s (by simp)
    have hlen : 1 ≤ (([] ++ 47 :: s : List Nat)).length := by simp
    have hge := foldl_path_len rest ([] ++ 47 :: s)
    simp only [l_coap_pdu_get_uri_path_str, l_coap_pdu_set_uri_path_arr,
      foldl_path_guard (s :: rest) [] h, List.isEmpty_cons, if_neg]
    rw [if_pos]
    · simp
    · simp only [List.foldl]
      omega

/-- Witness for claim C4 (amended) at the one-segment array `[ "hi" ]`. -/
theorem uri_path_spec_witness :
    l_coap_pdu_get_uri_path_str (l_coap_pdu_set_uri_path_arr [[104, 105]]) =
      if ([[104, 105]] : List (List Nat)).isEmpty then none
      else some (([[104, 105]] : List (List Nat)).foldl
        (fun acc s => acc ++ 47 :: s) []) :=
  uri_path_spec.2.2.2.2.2 [[104, 105]] (by decide)

end Copua
